import Mathlib

/-!
Shallow embedding of `osmclient/common/wait.py`, the status-polling engine
behind the command-line client's `--wait` option, together with theorems
settling the specification's claims about it.

Modelling conventions:
* Decoded JSON payloads (the result of Python's `json.loads`) are values of
  the inductive type `Json`.  The sentinel `resp = ''` that the Python code
  uses for an absent/empty body is represented by `Json.str ""`, which has
  the same truthiness and the same `str()` rendering.
* Python `dict.get(key)` is `Json.get?`; it yields `none` for a missing key
  and also for a stored JSON `null` (Python cannot distinguish the two
  through `get`).  `dict.get(key, {})` is `Json.getD`.  A non-dict receiver
  raises `AttributeError` in Python; these total versions return `none`/`{}`
  there instead and back only theorems whose hypotheses restrict to
  payloads on which no such raise can occur, while the exact variants
  `getE`/`getDE` (and the `...E` loop built on them) model the raise
  explicitly and back the error-taxonomy theorems.
* Exceptions are values of `Err`: `Err.client` is `ClientException`
  (modelled from the spec as an exception carrying a message string, since
  `exceptions.py` is not part of the analysed sources), and
  `Err.jsonDecode` is the `json.JSONDecodeError` that `json.loads` raises
  on a non-empty body that is not valid JSON.  The exact model's `ErrE`
  adds `attributeError`, the `AttributeError` of `.get` on a non-dict
  receiver.
* The fetch callback `http_cmd` is modelled as a function of the request
  URL and the poll-cycle index, returning an HTTP status code and a body;
  the body is `Body.empty` (Python `None` or `''`), `Body.valid j` (a
  non-empty body decoding to `j`) or `Body.invalid` (a non-empty body that
  is not valid JSON).
* Side effects are made observable in a `Trace`: the detailed-status lines
  written to stderr, the number of `sleep` calls, the number of times the
  delete-error retry branch decremented the retry budget, and the number of
  poll cycles executed.
-/

namespace OsmWait

/-- Decoded JSON values, i.e. the Python objects produced by `json.loads`. -/
inductive Json where
  | null
  | str (s : String)
  | num (n : Int)
  | bool (b : Bool)
  | arr (xs : List Json)
  | obj (fields : List (String × Json))

mutual

/-- Structural equality test on `Json` (Python `==` on decoded values,
ignoring Python's `True == 1` coercion, which no claim exercises). -/
def Json.beq : Json → Json → Bool
  | .null, .null => true
  | .str s, .str t => s == t
  | .num n, .num m => n == m
  | .bool a, .bool b => a == b
  | .arr xs, .arr ys => beqList xs ys
  | .obj fs, .obj gs => beqFields fs gs
  | _, _ => false

def beqList : List Json → List Json → Bool
  | [], [] => true
  | x :: xs, y :: ys => Json.beq x y && beqList xs ys
  | _, _ => false

def beqFields : List (String × Json) → List (String × Json) → Bool
  | [], [] => true
  | (k, v) :: fs, (l, w) :: gs => k == l && Json.beq v w && beqFields fs gs
  | _, _ => false

end

instance : BEq Json := ⟨Json.beq⟩

mutual

theorem Json.eq_of_beq : ∀ (a b : Json), Json.beq a b = true → a = b
  | .null, b, h => by cases b <;> simp_all [Json.beq]
  | .str s, b, h => by cases b <;> simp_all [Json.beq]
  | .num n, b, h => by cases b <;> simp_all [Json.beq]
  | .bool a, b, h => by cases b <;> simp_all [Json.beq]
  | .arr xs, b, h => by
    cases b <;> simp_all [Json.beq]
    exact eqList_of_beqList xs _ h
  | .obj fs, b, h => by
    cases b <;> simp_all [Json.beq]
    exact eqFields_of_beqFields fs _ h
termination_by a b _ => sizeOf a

theorem eqList_of_beqList : ∀ (xs ys : List Json), beqList xs ys = true → xs = ys
  | [], ys, h => by cases ys <;> simp_all [beqList]
  | x :: xs, ys, h => by
    cases ys with
    | nil => simp_all [beqList]
    | cons y ys =>
      simp only [beqList, Bool.and_eq_true] at h
      exact by rw [Json.eq_of_beq x y h.1, eqList_of_beqList xs ys h.2]
termination_by xs ys _ => sizeOf xs

theorem eqFields_of_beqFields :
    ∀ (fs gs : List (String × Json)), beqFields fs gs = true → fs = gs
  | [], gs, h => by cases gs <;> simp_all [beqFields]
  | (k, v) :: fs, gs, h => by
    cases gs with
    | nil => simp_all [beqFields]
    | cons g gs =>
      obtain ⟨l, w⟩ := g
      simp only [beqFields, Bool.and_eq_true, beq_iff_eq] at h
      exact by rw [h.1.1, Json.eq_of_beq v w h.1.2, eqFields_of_beqFields fs gs h.2]
termination_by fs gs _ => sizeOf fs

end

mutual

theorem Json.beq_refl : ∀ (a : Json), Json.beq a a = true
  | .null => by simp [Json.beq]
  | .str s => by simp [Json.beq]
  | .num n => by simp [Json.beq]
  | .bool a => by simp [Json.beq]
  | .arr xs => by simp only [Json.beq]; exact beqList_refl xs
  | .obj fs => by simp only [Json.beq]; exact beqFields_refl fs
termination_by a => sizeOf a

theorem beqList_refl : ∀ (xs : List Json), beqList xs xs = true
  | [] => by simp [beqList]
  | x :: xs => by
    simp only [beqList, Bool.and_eq_true]
    exact ⟨Json.beq_refl x, beqList_refl xs⟩
termination_by xs => sizeOf xs

theorem beqFields_refl : ∀ (fs : List (String × Json)), beqFields fs fs = true
  | [] => by simp [beqFields]
  | (k, v) :: fs => by
    simp only [beqFields, Bool.and_eq_true]
    refine ⟨⟨?_, Json.beq_refl v⟩, beqFields_refl fs⟩
    simp
termination_by fs => sizeOf fs

end

instance : LawfulBEq Json where
  eq_of_beq h := Json.eq_of_beq _ _ h
  rfl := Json.beq_refl _

instance Json.decEq : DecidableEq Json :=
  fun a b =>
    decidable_of_iff (Json.beq a b = true)
      ⟨Json.eq_of_beq a b, fun h => h ▸ Json.beq_refl a⟩

/-- Python truthiness of a decoded JSON value. -/
def Json.truthy : Json → Bool
  | .null => false
  | .str s => !s.isEmpty
  | .num n => n != 0
  | .bool b => b
  | .arr xs => !xs.isEmpty
  | .obj fs => !fs.isEmpty

/-- Python truthiness of a value that may be `None`. -/
def optTruthy : Option Json → Bool
  | none => false
  | some j => j.truthy

/-- First binding of a key in an association list of object fields. -/
def lookupField (fs : List (String × Json)) (k : String) : Option Json :=
  match fs.find? (fun p => p.1 == k) with
  | some p => some p.2
  | none => none

/-- Python `d.get(k)`: `none` for a missing key or a stored JSON `null`
(indistinguishable through `get`).  A non-dict receiver raises in Python;
this total version yields `none` there and is used only by theorems whose
hypotheses restrict to object receivers — the exact variant `getE` below
models the raise. -/
def Json.get? : Json → String → Option Json
  | .obj fs, k =>
    match lookupField fs k with
    | some .null => none
    | some v => some v
    | none => none
  | _, _ => none

/-- Python `d.get(k, {})`: the stored value when the key is present, the
empty object when it is absent. -/
def Json.getD : Json → String → Json
  | .obj fs, k =>
    match lookupField fs k with
    | some v => v
    | none => .obj []
  | _, _ => .obj []

/-- Python `x in finished_states` where `x` is a possibly-`None` decoded
value and `finished_states` a list of strings: membership by equality, so
only a decoded JSON string can match. -/
def pyInStrList (v : Option Json) (ss : List String) : Bool :=
  match v with
  | some (.str s) => ss.contains s
  | _ => false

mutual

/-- Python `repr()` of a decoded JSON value. -/
def pyRepr : Json → String
  | .null => "None"
  | .str s => "\x27" ++ s ++ "\x27"
  | .num n => toString n
  | .bool true => "True"
  | .bool false => "False"
  | .arr xs => "[" ++ pyReprList xs ++ "]"
  | .obj fs => "\x7b" ++ pyReprFields fs ++ "\x7d"

/-- Comma-joined `repr`s of the elements of a decoded list. -/
def pyReprList : List Json → String
  | [] => ""
  | [x] => pyRepr x
  | x :: xs => pyRepr x ++ ", " ++ pyReprList xs

/-- Comma-joined `key: value` `repr`s of the entries of a decoded dict. -/
def pyReprFields : List (String × Json) → String
  | [] => ""
  | [(k, v)] => "\x27" ++ k ++ "\x27: " ++ pyRepr v
  | (k, v) :: fs => "\x27" ++ k ++ "\x27: " ++ pyRepr v ++ ", " ++ pyReprFields fs

end

/-- Top-level Python `str()`: a string renders as itself, containers render
with `repr` of their elements. -/
def pyStr : Json → String
  | .str s => s
  | j => pyRepr j

-- Constants of wait.py.

def POLLING_TIME_INTERVAL : Int := 1

def MAX_DELETE_ATTEMPTS : Int := 3

/-- `_get_finished_states(entity)` from wait.py. -/
def get_finished_states (entity : String) : List String :=
  if entity = "NS" ∨ entity = "NSI" then
    ["COMPLETED", "PARTIALLY_COMPLETED", "FAILED_TEMP", "FAILED"]
  else
    ["ENABLED", "ERROR"]

/-- `_get_operational_state(resp, entity)` from wait.py. -/
def get_operational_state (resp : Json) (entity : String) : Option Json :=
  if entity = "NS" ∨ entity = "NSI" then
    resp.get? "operationState"
  else
    (resp.getD "_admin").get? "operationalState"

/-- `_op_has_finished(resp, entity)` from wait.py: `0` on finished, `1` on
pending, `-1` on a bad (malformed) response. -/
def op_has_finished (resp : Json) (entity : String) : Int :=
  let finished_states := get_finished_states entity
  if resp.truthy then
    let operationalState := get_operational_state resp entity
    if optTruthy operationalState then
      if pyInStrList operationalState finished_states then 0 else 1
    else -1
  else -1

/-- `_get_detailed_status(resp, entity, detailed_status_deleted)` from
wait.py. -/
def get_detailed_status (resp : Json) (entity : String)
    (detailed_status_deleted : Option Json) : Option Json :=
  if optTruthy detailed_status_deleted then detailed_status_deleted
  else if entity = "NS" ∨ entity = "NSI" then
    resp.get? "detailed-status"
  else
    (resp.getD "_admin").get? "detailed-status"

/-- `_has_delete_error(resp, entity, deleteFlag, delete_attempts_left)` from
wait.py.  `delete_attempts_left` is tested for Python truthiness, i.e.
being nonzero. -/
def has_delete_error (resp : Json) (entity : String) (deleteFlag : Bool)
    (delete_attempts_left : Int) : Bool :=
  if deleteFlag = true ∧ delete_attempts_left ≠ 0 then
    let state := get_operational_state resp entity
    optTruthy state && (state == some (.str "ERROR"))
  else false

/-- `_show_detailed_status(old, new)` from wait.py: returns whether a
`detailed-status:` line was written to stderr, and the value the caller
stores back. -/
def show_detailed_status (old new : Option Json) : Bool × Option Json :=
  if new ≠ none ∧ new ≠ old then (true, new) else (false, old)

-- The polling loop of `wait_for_status`.

/-- The body half of one fetch-callback result: Python `None` or `''`
(falsy, left undecoded), a non-empty body that decodes to a JSON value, or
a non-empty body that `json.loads` rejects. -/
inductive Body where
  | empty
  | valid (j : Json)
  | invalid
  deriving DecidableEq

/-- One result of the `http_cmd` fetch callback: HTTP status code plus
response body. -/
structure FetchResult where
  code : Int
  body : Body
  deriving DecidableEq

/-- `resp` after the decode step of a cycle: `''` for a falsy body, the
decoded value otherwise, `none` when `json.loads` raises. -/
def decodeBody : Body → Option Json
  | .empty => some (.str "")
  | .valid j => some j
  | .invalid => none

/-- Exceptions that can leave the polling loop: `ClientException` with its
message (modelled from the spec: `exceptions.py` is outside the analysed
sources, and the spec describes the exception as carrying a human-readable
message), or the `json.JSONDecodeError` raised by `json.loads`. -/
inductive Err where
  | client (msg : String)
  | jsonDecode
  deriving DecidableEq

/-- The local variables of `wait_for_status` that survive from one loop
iteration to the next (`time_to_return` never does: once set, the same
iteration returns). -/
structure LoopState where
  time_left : Int
  detailed_status : Option Json
  detailed_status_deleted : Option Json
  delete_attempts_left : Int
  deriving DecidableEq

/-- Observable side effects of one loop iteration: `detailed-status:`
lines written to stderr, number of `sleep` calls, and whether the
delete-error retry branch decremented the retry budget. -/
structure CycleEvents where
  emitted : List Json
  slept : Nat
  errorRetry : Bool
  deriving DecidableEq

/-- How one loop iteration ends: `ret` is the `return` statement (success),
`next` continues with the updated state, `raise e st` propagates an
exception (with the session state live at the raise site). -/
inductive CycleOut where
  | ret (st : LoopState)
  | next (st : LoopState)
  | raise (e : Err) (st : LoopState)
  deriving DecidableEq

def CycleOut.state : CycleOut → LoopState
  | .ret st => st
  | .next st => st
  | .raise _ st => st

def CycleOut.isRet : CycleOut → Bool
  | .ret _ => true
  | _ => false

/-- The detailed-status value a cycle computes: the `_get_detailed_status`
result, with a falsy value replaced by the literal `'In progress'`. -/
def newDetailedStatus (resp : Json) (entity : String) (dsd : Option Json) : Option Json :=
  let nds0 := get_detailed_status resp entity dsd
  if optTruthy nds0 then nds0 else some (.str "In progress")

/-- The tail of one loop iteration, from the `_get_detailed_status` call to
the end of the `while` body: progress reporting, the `return` on
`time_to_return`, and otherwise budget decrement, sleep and timeout check.
`dal` is the value of `delete_attempts_left` after the classification
phase; `errorRetry` records whether this iteration took the delete-error
retry branch. -/
def cycleTail (entity : String) (timeout : Int) (resp : Json)
    (time_to_return : Bool) (dsd : Option Json) (st : LoopState)
    (errorRetry : Bool) (dal : Int) : CycleOut × CycleEvents :=
  let new_detailed_status := newDetailedStatus resp entity dsd
  let shown := show_detailed_status st.detailed_status new_detailed_status
  let emitted : List Json := if shown.1 then new_detailed_status.toList else []
  let st1 : LoopState :=
    { time_left := st.time_left, detailed_status := shown.2,
      detailed_status_deleted := dsd, delete_attempts_left := dal }
  if time_to_return then
    (.ret st1, ⟨emitted, 0, errorRetry⟩)
  else
    let st2 : LoopState := { st1 with time_left := st1.time_left - POLLING_TIME_INTERVAL }
    if st2.time_left ≤ 0 then
      (.raise (.client ("operation timeout, waited for " ++ toString timeout ++ " seconds")) st2,
       ⟨emitted, 1, errorRetry⟩)
    else
      (.next st2, ⟨emitted, 1, errorRetry⟩)

/-- One iteration of the `while True` loop of `wait_for_status`, from the
`http_cmd` call to either `return`, an exception, or the next iteration. -/
def cycle (entity : String) (deleteFlag : Bool) (timeout : Int)
    (fr : FetchResult) (st : LoopState) : CycleOut × CycleEvents :=
  match decodeBody fr.body with
  | none => (.raise .jsonDecode st, ⟨[], 0, false⟩)
  | some resp =>
    if deleteFlag = true ∧ fr.code = 404 then
      -- '404 Not Found' on deletion means successfully deleted: skip the
      -- classification phase entirely.
      cycleTail entity timeout resp true (some (.str "Deleted")) st false
        st.delete_attempts_left
    else if ¬(fr.code = 200 ∨ fr.code = 201 ∨ fr.code = 202 ∨ fr.code = 204) then
      (.raise (.client (pyStr resp)) st, ⟨[], 0, false⟩)
    else
      let op_status := op_has_finished resp entity
      if op_status = -1 then
        (.raise (.client ("unexpected response from server - " ++ pyStr resp ++ " ")) st,
         ⟨[], 0, false⟩)
      else if op_status = 0 then
        if has_delete_error resp entity deleteFlag st.delete_attempts_left then
          cycleTail entity timeout resp false st.detailed_status_deleted st true
            (st.delete_attempts_left - 1)
        else
          if deleteFlag then
            cycleTail entity timeout resp
              (decide (st.delete_attempts_left < MAX_DELETE_ATTEMPTS))
              st.detailed_status_deleted st false (st.delete_attempts_left - 1)
          else
            cycleTail entity timeout resp true st.detailed_status_deleted st false
              st.delete_attempts_left
      else
        cycleTail entity timeout resp false st.detailed_status_deleted st false
          st.delete_attempts_left

/-- Accumulated observable side effects of a run. -/
structure Trace where
  emissions : List Json
  sleeps : Nat
  errorRetries : Nat
  cycles : Nat
  deriving DecidableEq

def Trace.add (t : Trace) (ev : CycleEvents) : Trace :=
  ⟨t.emissions ++ ev.emitted, t.sleeps + ev.slept,
   t.errorRetries + (if ev.errorRetry then 1 else 0), t.cycles + 1⟩

/-- How a run of `wait_for_status` ends: a normal return with the final
session state, a propagated exception, or fuel exhaustion (the loop was
still running after the given number of iterations). -/
inductive Outcome where
  | finished (final : LoopState)
  | raised (e : Err)
  | fuelOut
  deriving DecidableEq

def Outcome.isFinished : Outcome → Bool
  | .finished _ => true
  | _ => false

/-- The `while True` loop, fuelled: `i` is the index of the next poll
cycle, `fetches i` the result the fetch callback returns on that cycle. -/
def loopAux (entity : String) (deleteFlag : Bool) (timeout : Int)
    (fetches : Nat → FetchResult) :
    Nat → Nat → LoopState → Trace → Outcome × Trace
  | 0, _, _, t => (.fuelOut, t)
  | fuel + 1, i, st, t =>
    let stepOut := cycle entity deleteFlag timeout (fetches i) st
    let t1 := t.add stepOut.2
    match stepOut.1 with
    | .ret st1 => (.finished st1, t1)
    | .raise e _ => (.raised e, t1)
    | .next st1 => loopAux entity deleteFlag timeout fetches fuel (i + 1) st1 t1

/-- Local-variable initialization of `wait_for_status`. -/
def initState (timeout : Int) : LoopState :=
  { time_left := timeout, detailed_status := none,
    detailed_status_deleted := none, delete_attempts_left := MAX_DELETE_ATTEMPTS }

/-- The `except ClientException` boundary of `wait_for_status`: a
`ClientException` leaving the loop is re-raised wrapped in the uniform
message; any other outcome (normal return, fuel exhaustion, or an
exception of another class such as a JSON decode error) passes through
untouched. -/
def wrapError (entity_label : String) (r : Outcome × Trace) : Outcome × Trace :=
  match r.1 with
  | .raised (.client m) =>
    (.raised (.client ("Operation failed for " ++ entity_label ++ ":\nerror:\n" ++ m)), r.2)
  | _ => r

/-- `wait_for_status(entity_label, entity_id, timeout, apiUrlStatus,
http_cmd, deleteFlag)` from wait.py.  The fetch callback receives the
polled URL (constant across cycles) and the poll-cycle index, modelling
the callback's external state. -/
def wait_for_status (entity_label entity_id : String) (timeout : Int)
    (apiUrlStatus : String) (http_cmd : String → Nat → FetchResult)
    (deleteFlag : Bool) (fuel : Nat) : Outcome × Trace :=
  let fetches : Nat → FetchResult :=
    fun i => http_cmd (apiUrlStatus ++ "/" ++ entity_id) i
  wrapError entity_label
    (loopAux entity_label deleteFlag timeout fetches fuel 0
      (initState timeout) ⟨[], 0, 0, 0⟩)

/-
Exact error-path model.

The definitions above totalize Python's `dict.get`: on a non-dict receiver
they return `none` / `{}` where Python raises `AttributeError`.  That is
harmless for the classification and session theorems, whose hypotheses
only cover payloads on which no `AttributeError` can occur, but it is not
good enough for the error-taxonomy claim: a truthy non-dict payload (say a
body `5` with HTTP 200) reaches `resp.get` inside `_get_operational_state`
and raises an `AttributeError`, which is neither a JSON decode error nor a
`ClientException` and escapes the `except ClientException` boundary
unwrapped.  The `...E` definitions below re-embed the same source with the
`AttributeError` path explicit: `getE`/`getDE` are `dict.get` with the
raise represented as `Except.error`, and the loop is rebuilt on top of
them, unchanged in every other respect.
-/

/-- Exact model of Python `d.get(k)`: `AttributeError` (`Except.error`) on
a non-dict receiver; on a dict, `none` for a missing key or a stored JSON
`null`. -/
def getE : Json → String → Except Unit (Option Json)
  | .obj fs, k =>
    .ok (match lookupField fs k with
         | some .null => none
         | some v => some v
         | none => none)
  | _, _ => .error ()

/-- Exact model of Python `d.get(k, {})`: `AttributeError` on a non-dict
receiver; on a dict, the stored value when the key is present, else the
empty object. -/
def getDE : Json → String → Except Unit Json
  | .obj fs, k =>
    .ok (match lookupField fs k with
         | some v => v
         | none => .obj [])
  | _, _ => .error ()

/-- `_get_operational_state(resp, entity)` in the exact model: either of
the two chained `get` calls can raise (`resp` non-dict, or a present
`_admin` whose value is not a dict). -/
def get_operational_stateE (resp : Json) (entity : String) :
    Except Unit (Option Json) :=
  if entity = "NS" ∨ entity = "NSI" then
    getE resp "operationState"
  else
    match getDE resp "_admin" with
    | .error e => .error e
    | .ok admin => getE admin "operationalState"

/-- `_op_has_finished(resp, entity)` in the exact model: the extraction is
only attempted (and can only raise) on a truthy payload. -/
def op_has_finishedE (resp : Json) (entity : String) : Except Unit Int :=
  let finished_states := get_finished_states entity
  if resp.truthy then
    match get_operational_stateE resp entity with
    | .error e => .error e
    | .ok operationalState =>
      .ok (if optTruthy operationalState then
             if pyInStrList operationalState finished_states then 0 else 1
           else -1)
  else .ok (-1)

/-- `_has_delete_error(resp, entity, deleteFlag, delete_attempts_left)` in
the exact model. -/
def has_delete_errorE (resp : Json) (entity : String) (deleteFlag : Bool)
    (delete_attempts_left : Int) : Except Unit Bool :=
  if deleteFlag = true ∧ delete_attempts_left ≠ 0 then
    match get_operational_stateE resp entity with
    | .error e => .error e
    | .ok state => .ok (optTruthy state && (state == some (.str "ERROR")))
  else .ok false

/-- `_get_detailed_status(resp, entity, detailed_status_deleted)` in the
exact model: with a truthy override it returns before touching the
payload, otherwise the `get` chain can raise. -/
def get_detailed_statusE (resp : Json) (entity : String)
    (detailed_status_deleted : Option Json) : Except Unit (Option Json) :=
  if optTruthy detailed_status_deleted then .ok detailed_status_deleted
  else if entity = "NS" ∨ entity = "NSI" then
    getE resp "detailed-status"
  else
    match getDE resp "_admin" with
    | .error e => .error e
    | .ok admin => getE admin "detailed-status"

/-- The detailed-status value a cycle computes, in the exact model. -/
def newDetailedStatusE (resp : Json) (entity : String) (dsd : Option Json) :
    Except Unit (Option Json) :=
  match get_detailed_statusE resp entity dsd with
  | .error e => .error e
  | .ok nds0 => .ok (if optTruthy nds0 then nds0 else some (.str "In progress"))

/-- Exceptions that can leave the polling loop, in the exact model:
`ClientException` with its message, the JSON decode error, or the
`AttributeError` raised by `.get` on a non-dict receiver. -/
inductive ErrE where
  | client (msg : String)
  | jsonDecode
  | attributeError
  deriving DecidableEq

/-- How one loop iteration ends in the exact model. -/
inductive CycleOutE where
  | ret (st : LoopState)
  | next (st : LoopState)
  | raise (e : ErrE) (st : LoopState)
  deriving DecidableEq

/-- The tail of one loop iteration in the exact model: identical to
`cycleTail` except that the detailed-status extraction can raise an
`AttributeError`, which then propagates before any emission or sleep. -/
def cycleTailE (entity : String) (timeout : Int) (resp : Json)
    (time_to_return : Bool) (dsd : Option Json) (st : LoopState)
    (errorRetry : Bool) (dal : Int) : CycleOutE × CycleEvents :=
  match newDetailedStatusE resp entity dsd with
  | .error _ => (.raise .attributeError st, ⟨[], 0, errorRetry⟩)
  | .ok new_detailed_status =>
    let shown := show_detailed_status st.detailed_status new_detailed_status
    let emitted : List Json := if shown.1 then new_detailed_status.toList else []
    let st1 : LoopState :=
      { time_left := st.time_left, detailed_status := shown.2,
        detailed_status_deleted := dsd, delete_attempts_left := dal }
    if time_to_return then
      (.ret st1, ⟨emitted, 0, errorRetry⟩)
    else
      let st2 : LoopState := { st1 with time_left := st1.time_left - POLLING_TIME_INTERVAL }
      if st2.time_left ≤ 0 then
        (.raise (.client ("operation timeout, waited for " ++ toString timeout ++ " seconds"))
           st2,
         ⟨emitted, 1, errorRetry⟩)
      else
        (.next st2, ⟨emitted, 1, errorRetry⟩)

/-- One iteration of the `while True` loop in the exact model: identical
to `cycle` except that classification and the delete-error test can raise
an `AttributeError` that propagates unwrapped. -/
def cycleE (entity : String) (deleteFlag : Bool) (timeout : Int)
    (fr : FetchResult) (st : LoopState) : CycleOutE × CycleEvents :=
  match decodeBody fr.body with
  | none => (.raise .jsonDecode st, ⟨[], 0, false⟩)
  | some resp =>
    if deleteFlag = true ∧ fr.code = 404 then
      cycleTailE entity timeout resp true (some (.str "Deleted")) st false
        st.delete_attempts_left
    else if ¬(fr.code = 200 ∨ fr.code = 201 ∨ fr.code = 202 ∨ fr.code = 204) then
      (.raise (.client (pyStr resp)) st, ⟨[], 0, false⟩)
    else
      match op_has_finishedE resp entity with
      | .error _ => (.raise .attributeError st, ⟨[], 0, false⟩)
      | .ok op_status =>
        if op_status = -1 then
          (.raise (.client ("unexpected response from server - " ++ pyStr resp ++ " ")) st,
           ⟨[], 0, false⟩)
        else if op_status = 0 then
          match has_delete_errorE resp entity deleteFlag st.delete_attempts_left with
          | .error _ => (.raise .attributeError st, ⟨[], 0, false⟩)
          | .ok hde =>
            if hde then
              cycleTailE entity timeout resp false st.detailed_status_deleted st true
                (st.delete_attempts_left - 1)
            else
              if deleteFlag then
                cycleTailE entity timeout resp
                  (decide (st.delete_attempts_left < MAX_DELETE_ATTEMPTS))
                  st.detailed_status_deleted st false (st.delete_attempts_left - 1)
              else
                cycleTailE entity timeout resp true st.detailed_status_deleted st false
                  st.delete_attempts_left
        else
          cycleTailE entity timeout resp false st.detailed_status_deleted st false
            st.delete_attempts_left

/-- How a run ends in the exact model. -/
inductive OutcomeE where
  | finished (final : LoopState)
  | raised (e : ErrE)
  | fuelOut
  deriving DecidableEq

/-- The `while True` loop in the exact model, fuelled. -/
def loopAuxE (entity : String) (deleteFlag : Bool) (timeout : Int)
    (fetches : Nat → FetchResult) :
    Nat → Nat → LoopState → Trace → OutcomeE × Trace
  | 0, _, _, t => (.fuelOut, t)
  | fuel + 1, i, st, t =>
    let stepOut := cycleE entity deleteFlag timeout (fetches i) st
    let t1 := t.add stepOut.2
    match stepOut.1 with
    | .ret st1 => (.finished st1, t1)
    | .raise e _ => (.raised e, t1)
    | .next st1 => loopAuxE entity deleteFlag timeout fetches fuel (i + 1) st1 t1

/-- The `except ClientException` boundary in the exact model: only a
`ClientException` is caught and re-raised wrapped; the JSON decode error
and the `AttributeError` pass through untouched. -/
def wrapErrorE (entity_label : String) (r : OutcomeE × Trace) : OutcomeE × Trace :=
  match r.1 with
  | .raised (.client m) =>
    (.raised (.client ("Operation failed for " ++ entity_label ++ ":\nerror:\n" ++ m)), r.2)
  | _ => r

/-- `wait_for_status` in the exact model. -/
def wait_for_statusE (entity_label entity_id : String) (timeout : Int)
    (apiUrlStatus : String) (http_cmd : String → Nat → FetchResult)
    (deleteFlag : Bool) (fuel : Nat) : OutcomeE × Trace :=
  let fetches : Nat → FetchResult :=
    fun i => http_cmd (apiUrlStatus ++ "/" ++ entity_id) i
  wrapErrorE entity_label
    (loopAuxE entity_label deleteFlag timeout fetches fuel 0
      (initState timeout) ⟨[], 0, 0, 0⟩)

-- Helper lemmas about the classifier.

/-- A non-empty Python string is truthy. -/
theorem str_truthy_of_ne (s : String) (h : ¬s = "") : Json.truthy (.str s) = true := by
  have hie : s.isEmpty = false := by
    by_contra hc
    rw [Bool.not_eq_false] at hc
    exact h ((String.isEmpty_iff s).1 hc)
  simp [Json.truthy, hie]

/-- A payload from which an operational state was extracted is truthy: the
extraction only succeeds on a non-empty object. -/
theorem truthy_of_get_state (resp : Json) (entity : String) (v : Json)
    (h : get_operational_state resp entity = some v) : resp.truthy = true := by
  unfold get_operational_state at h
  split at h
  · cases resp with
    | obj fs =>
      cases fs with
      | nil => simp [Json.get?, lookupField] at h
      | cons p fs => simp [Json.truthy]
    | _ => simp [Json.get?] at h
  · cases resp with
    | obj fs =>
      cases fs with
      | nil => simp [Json.getD, Json.get?, lookupField] at h
      | cons p fs => simp [Json.truthy]
    | _ => simp [Json.getD, Json.get?, lookupField] at h

/-- `_op_has_finished` reports `0` (finished) exactly when the extracted
operational state is a string belonging to the entity's finished set. -/
theorem op_finished_iff (resp : Json) (entity : String) :
    op_has_finished resp entity = 0 ↔
      ∃ s, get_operational_state resp entity = some (.str s) ∧
        s ∈ get_finished_states entity := by
  constructor
  · intro h0
    simp only [op_has_finished] at h0
    by_cases ht : resp.truthy = true
    · rw [if_pos ht] at h0
      by_cases hov : optTruthy (get_operational_state resp entity) = true
      · rw [if_pos hov] at h0
        by_cases hm : pyInStrList (get_operational_state resp entity)
            (get_finished_states entity) = true
        · rcases hs : get_operational_state resp entity with _ | v <;> rw [hs] at hm
          · simp [pyInStrList] at hm
          · cases v with
            | str s => exact ⟨s, rfl, by simpa [pyInStrList, List.elem_iff] using hm⟩
            | _ => simp [pyInStrList] at hm
        · rw [if_neg hm] at h0; simp at h0
      · rw [if_neg hov] at h0; simp at h0
    · rw [if_neg ht] at h0; simp at h0
  · rintro ⟨s, hs, hmem⟩
    have ht := truthy_of_get_state resp entity _ hs
    have hne : ¬s = "" := by
      unfold get_finished_states at hmem
      split at hmem <;> intro he <;> subst he <;> simp at hmem
    simp only [op_has_finished]
    rw [if_pos ht, if_pos (by simp [hs, optTruthy, str_truthy_of_ne s hne]),
      if_pos (by simp [hs, pyInStrList, List.elem_iff, hmem])]

/-- `_op_has_finished` reports `1` (pending) on any truthy extracted state
outside the finished set. -/
theorem op_pending_of (resp : Json) (entity : String) (v : Json)
    (hs : get_operational_state resp entity = some v) (htv : v.truthy = true)
    (hm : pyInStrList (some v) (get_finished_states entity) = false) :
    op_has_finished resp entity = 1 := by
  have ht := truthy_of_get_state resp entity _ hs
  simp only [op_has_finished]
  rw [if_pos ht, if_pos (by simp [hs, optTruthy, htv]), if_neg (by simp [hs, hm])]

/-- `_op_has_finished` reports `-1` (malformed) whenever no operational
state can be extracted — in particular on an empty payload. -/
theorem op_malformed_of_none (resp : Json) (entity : String)
    (hs : get_operational_state resp entity = none) :
    op_has_finished resp entity = -1 := by
  simp only [op_has_finished]
  by_cases ht : resp.truthy = true
  · rw [if_pos ht, if_neg (by simp [hs, optTruthy])]
  · rw [if_neg ht]

/-- C7.  Classification of status payloads, for both entity-kind families.
For a JSON-object payload and an entity kind other than `NS`/`NSI`:
finished (`0`) iff `_admin.operationalState` is a string in
`{ENABLED, ERROR}`; pending (`1`) on any other truthy (non-empty) value of
that field; malformed (`-1`) when the state is absent (which covers a
missing `_admin`, a missing `operationalState`, and the empty payload).
For `NS`/`NSI`: finished iff `operationState` is a string in
`{COMPLETED, PARTIALLY_COMPLETED, FAILED_TEMP, FAILED}`; pending on
`PROCESSING`, `ROLLING_BACK` and `ROLLED_BACK`; malformed when the field
is absent. -/
theorem classify_characterization (entity : String) (fs : List (String × Json)) :
    (¬(entity = "NS" ∨ entity = "NSI") →
      (op_has_finished (.obj fs) entity = 0 ↔
        ∃ s, get_operational_state (.obj fs) entity = some (.str s) ∧
          (s = "ENABLED" ∨ s = "ERROR"))
      ∧ (∀ v, get_operational_state (.obj fs) entity = some v → v.truthy = true →
          pyInStrList (some v) ["ENABLED", "ERROR"] = false →
          op_has_finished (.obj fs) entity = 1)
      ∧ ((fs = [] ∨ get_operational_state (.obj fs) entity = none) →
          op_has_finished (.obj fs) entity = -1))
    ∧ ((entity = "NS" ∨ entity = "NSI") →
      (op_has_finished (.obj fs) entity = 0 ↔
        ∃ s, get_operational_state (.obj fs) entity = some (.str s) ∧
          (s = "COMPLETED" ∨ s = "PARTIALLY_COMPLETED" ∨ s = "FAILED_TEMP" ∨ s = "FAILED"))
      ∧ (∀ s, get_operational_state (.obj fs) entity = some (.str s) →
          (s = "PROCESSING" ∨ s = "ROLLING_BACK" ∨ s = "ROLLED_BACK") →
          op_has_finished (.obj fs) entity = 1)
      ∧ (get_operational_state (.obj fs) entity = none →
          op_has_finished (.obj fs) entity = -1)) := by
  constructor
  · intro hent
    have hfs : get_finished_states entity = ["ENABLED", "ERROR"] := by
      unfold get_finished_states; rw [if_neg hent]
    refine ⟨?_, ?_, ?_⟩
    · rw [op_finished_iff, hfs]
      constructor
      · rintro ⟨s, hs, hmem⟩
        exact ⟨s, hs, by simpa using hmem⟩
      · rintro ⟨s, hs, hmem⟩
        exact ⟨s, hs, by simpa using hmem⟩
    · intro v hs htv hm
      exact op_pending_of _ _ v hs htv (by rw [hfs]; exact hm)
    · rintro (h | h)
      · subst h
        exact op_malformed_of_none _ _ (by
          unfold get_operational_state
          split <;> simp [Json.get?, Json.getD, lookupField])
      · exact op_malformed_of_none _ _ h
  · intro hent
    have hfs : get_finished_states entity =
        ["COMPLETED", "PARTIALLY_COMPLETED", "FAILED_TEMP", "FAILED"] := by
      unfold get_finished_states; rw [if_pos hent]
    refine ⟨?_, ?_, ?_⟩
    · rw [op_finished_iff, hfs]
      constructor
      · rintro ⟨s, hs, hmem⟩
        exact ⟨s, hs, by simpa using hmem⟩
      · rintro ⟨s, hs, hmem⟩
        exact ⟨s, hs, by simpa using hmem⟩
    · rintro s hs (h | h | h) <;> subst h <;>
        exact op_pending_of _ _ _ hs (by decide) (by rw [hfs]; decide)
    · intro h
      exact op_malformed_of_none _ _ h

/-- C10.  For a non-`NS`/`NSI` entity kind and a JSON-object payload with
no `_admin` member, operational-state extraction totally returns `none`
(Python defaults the missing `_admin` to `{}` and `get` then finds
nothing, raising no exception), and classification yields the malformed
verdict `-1`. -/
theorem missing_admin_malformed (entity : String)
    (hent : ¬(entity = "NS" ∨ entity = "NSI"))
    (fs : List (String × Json)) (hadmin : lookupField fs "_admin" = none) :
    get_operational_state (.obj fs) entity = none
    ∧ op_has_finished (.obj fs) entity = -1 := by
  have hstate : get_operational_state (.obj fs) entity = none := by
    unfold get_operational_state
    rw [if_neg hent]
    have hgd : Json.getD (.obj fs) "_admin" = .obj [] := by
      simp [Json.getD, hadmin]
    rw [hgd]
    simp [Json.get?, lookupField]
  exact ⟨hstate, op_malformed_of_none _ _ hstate⟩

-- Helper lemmas about progress reporting and the cycle tail.

/-- Storing through `_show_detailed_status` with a present new value always
leaves that value stored (either it replaced the old one, or it already
equalled it). -/
theorem show_detailed_status_keep (old : Option Json) (v : Json) :
    (show_detailed_status old (some v)).2 = some v := by
  unfold show_detailed_status
  split
  · rfl
  · next h =>
    push_neg at h
    exact (h (Option.some_ne_none v)).symm

/-- C8.  Progress reporting is change-triggered: with a present computed
value `v` that differs from the previously reported one, the first of two
consecutive identical cycles emits (and stores `v`) and the second does
not, so the pair produces exactly one emission; in general a line is
emitted iff the new value is present and differs from the stored one, and
a non-emitting call leaves the stored value unchanged. -/
theorem change_triggered_reporting (old : Option Json) (v : Json)
    (hne : old ≠ some v) :
    show_detailed_status old (some v) = (true, some v)
    ∧ show_detailed_status (some v) (some v) = (false, some v)
    ∧ (∀ o n : Option Json, (show_detailed_status o n).1 = true ↔ n ≠ none ∧ n ≠ o)
    ∧ (∀ o n : Option Json, (show_detailed_status o n).1 = false →
        (show_detailed_status o n).2 = o) := by
  refine ⟨?_, ?_, ?_, ?_⟩
  · unfold show_detailed_status
    rw [if_pos ⟨Option.some_ne_none v, fun h => hne h.symm⟩]
  · unfold show_detailed_status
    rw [if_neg (by simp)]
  · intro o n
    unfold show_detailed_status
    split
    · next h => simpa using h
    · next h => simpa using h
  · intro o n
    unfold show_detailed_status
    split
    · intro h; simp at h
    · intro _; rfl

/-- The cycle tail `return`s exactly when `time_to_return` was set. -/
theorem cycleTail_isRet (entity : String) (timeout : Int) (resp : Json)
    (ttr : Bool) (dsd : Option Json) (st : LoopState) (er : Bool) (dal : Int) :
    ((cycleTail entity timeout resp ttr dsd st er dal).1).isRet = ttr := by
  unfold cycleTail
  cases ttr
  · simp only [Bool.false_eq_true, if_false]
    split <;> rfl
  · rfl

/-- Whatever the cycle tail does, the session state it carries holds the
`delete_attempts_left` and `detailed_status_deleted` it was given. -/
theorem cycleTail_state_fields (entity : String) (timeout : Int) (resp : Json)
    (ttr : Bool) (dsd : Option Json) (st : LoopState) (er : Bool) (dal : Int) :
    ((cycleTail entity timeout resp ttr dsd st er dal).1).state.delete_attempts_left = dal
    ∧ ((cycleTail entity timeout resp ttr dsd st er dal).1).state.detailed_status_deleted
        = dsd := by
  unfold cycleTail
  cases ttr
  · simp only [Bool.false_eq_true, if_false]
    split <;> exact ⟨rfl, rfl⟩
  · exact ⟨rfl, rfl⟩

/-- A cycle tail with `time_to_return` set returns at once: no sleep, and
the stored `delete_attempts_left` is the one given. -/
theorem cycleTail_ret (entity : String) (timeout : Int) (resp : Json)
    (dsd : Option Json) (st : LoopState) (er : Bool) (dal : Int) :
    ∃ em, cycleTail entity timeout resp true dsd st er dal =
      (.ret { time_left := st.time_left,
              detailed_status := (show_detailed_status st.detailed_status
                (newDetailedStatus resp entity dsd)).2,
              detailed_status_deleted := dsd,
              delete_attempts_left := dal },
       ⟨em, 0, er⟩) :=
  ⟨if (show_detailed_status st.detailed_status (newDetailedStatus resp entity dsd)).1
     then (newDetailedStatus resp entity dsd).toList else [], rfl⟩

/-- A cycle tail with `time_to_return` unset and time budget not yet
exhausted sleeps once and continues with the decremented budget. -/
theorem cycleTail_next (entity : String) (timeout : Int) (resp : Json)
    (dsd : Option Json) (st : LoopState) (er : Bool) (dal : Int)
    (htime : ¬ st.time_left - POLLING_TIME_INTERVAL ≤ 0) :
    ∃ ds em, cycleTail entity timeout resp false dsd st er dal =
      (.next { time_left := st.time_left - POLLING_TIME_INTERVAL,
               detailed_status := ds,
               detailed_status_deleted := dsd,
               delete_attempts_left := dal },
       ⟨em, 1, er⟩) := by
  refine ⟨(show_detailed_status st.detailed_status (newDetailedStatus resp entity dsd)).2,
    if (show_detailed_status st.detailed_status (newDetailedStatus resp entity dsd)).1
      then (newDetailedStatus resp entity dsd).toList else [], ?_⟩
  unfold cycleTail
  rw [if_neg (by simp), if_neg htime]

/-- A cycle tail with `time_to_return` unset whose decremented budget hits
zero or below sleeps once and then raises the timeout error, which carries
the originally requested timeout value. -/
theorem cycleTail_timeout (entity : String) (timeout : Int) (resp : Json)
    (dsd : Option Json) (st : LoopState) (er : Bool) (dal : Int)
    (htime : st.time_left - POLLING_TIME_INTERVAL ≤ 0) :
    ∃ st2 em, cycleTail entity timeout resp false dsd st er dal =
      (.raise (.client ("operation timeout, waited for " ++ toString timeout ++ " seconds"))
         st2,
       ⟨em, 1, er⟩) := by
  refine ⟨{ time_left := st.time_left - POLLING_TIME_INTERVAL,
            detailed_status := (show_detailed_status st.detailed_status
              (newDetailedStatus resp entity dsd)).2,
            detailed_status_deleted := dsd, delete_attempts_left := dal },
    if (show_detailed_status st.detailed_status (newDetailedStatus resp entity dsd)).1
      then (newDetailedStatus resp entity dsd).toList else [], ?_⟩
  unfold cycleTail
  rw [if_neg (by simp), if_pos htime]

/-- C2.  In a poll cycle whose classification is finished and where the
transient delete-error condition does not hold: on a delete operation the
cycle marks time-to-return (`return`s) exactly when the delete-retry
budget is already below its initial value `MAX_DELETE_ATTEMPTS` (i.e. has
been decremented at least once), and in either case the budget it stores
is decremented by one; on a non-delete operation it marks time-to-return
unconditionally. -/
theorem finished_cycle_marking (entity : String) (deleteFlag : Bool) (timeout : Int)
    (fr : FetchResult) (st : LoopState) (j : Json)
    (hbody : decodeBody fr.body = some j)
    (hcode : fr.code = 200 ∨ fr.code = 201 ∨ fr.code = 202 ∨ fr.code = 204)
    (hfin : op_has_finished j entity = 0)
    (hnde : has_delete_error j entity deleteFlag st.delete_attempts_left = false) :
    (deleteFlag = true →
      ((cycle entity deleteFlag timeout fr st).1.isRet
          = decide (st.delete_attempts_left < MAX_DELETE_ATTEMPTS))
      ∧ (cycle entity deleteFlag timeout fr st).1.state.delete_attempts_left
          = st.delete_attempts_left - 1)
    ∧ (deleteFlag = false →
      (cycle entity deleteFlag timeout fr st).1.isRet = true) := by
  have hc404 : ¬(deleteFlag = true ∧ fr.code = 404) := by
    rintro ⟨-, h4⟩
    rcases hcode with h | h | h | h <;> rw [h4] at h <;> omega
  have hcycle : cycle entity deleteFlag timeout fr st =
      (if has_delete_error j entity deleteFlag st.delete_attempts_left then
        cycleTail entity timeout j false st.detailed_status_deleted st true
          (st.delete_attempts_left - 1)
      else
        if deleteFlag then
          cycleTail entity timeout j
            (decide (st.delete_attempts_left < MAX_DELETE_ATTEMPTS))
            st.detailed_status_deleted st false (st.delete_attempts_left - 1)
        else
          cycleTail entity timeout j true st.detailed_status_deleted st false
            st.delete_attempts_left) := by
    unfold cycle
    simp only [hbody]
    rw [if_neg hc404, if_neg (not_not_intro hcode)]
    rw [hfin]
    norm_num
  rw [hcycle, if_neg (by rw [hnde]; exact Bool.false_ne_true)]
  constructor
  · intro hd
    rw [if_pos hd]
    exact ⟨cycleTail_isRet .., (cycleTail_state_fields ..).1⟩
  · intro hd
    rw [if_neg (by rw [hd]; exact Bool.false_ne_true)]
    exact cycleTail_isRet ..

/-- C9.  On a delete operation, an HTTP 404 on any poll cycle — whatever
the session state, and whatever the (decodable) body's payload, even one
that would classify as malformed or pending — makes the cycle return
success at once, with no sleep, with the override detailed-status set and
the stored detailed-status equal to `"Deleted"`: the 404 branch bypasses
both the protocol-error check and payload classification. -/
theorem delete_404_bypass (entity : String) (timeout : Int)
    (fr : FetchResult) (st : LoopState) (j : Json)
    (hbody : decodeBody fr.body = some j) (hcode : fr.code = 404) :
    (cycle entity true timeout fr st).1.isRet = true
    ∧ (cycle entity true timeout fr st).1.state.detailed_status = some (.str "Deleted")
    ∧ (cycle entity true timeout fr st).1.state.detailed_status_deleted
        = some (.str "Deleted")
    ∧ (cycle entity true timeout fr st).2.slept = 0 := by
  have hdel : get_detailed_status j entity (some (.str "Deleted"))
      = some (.str "Deleted") := by
    unfold get_detailed_status
    rw [if_pos (by decide)]
  have hcycle : cycle entity true timeout fr st =
      cycleTail entity timeout j true (some (.str "Deleted")) st false
        st.delete_attempts_left := by
    unfold cycle
    simp only [hbody]
    rw [if_pos ⟨by trivial, hcode⟩]
  have hnds : newDetailedStatus j entity (some (.str "Deleted"))
      = some (.str "Deleted") := by
    unfold newDetailedStatus
    rw [hdel, if_pos (by decide)]
  obtain ⟨em, hct⟩ := cycleTail_ret entity timeout j (some (.str "Deleted")) st false
    st.delete_attempts_left
  rw [hcycle, hct]
  refine ⟨rfl, ?_, rfl, rfl⟩
  show (show_detailed_status st.detailed_status
    (newDetailedStatus j entity (some (.str "Deleted")))).2 = some (.str "Deleted")
  rw [hnds]
  exact show_detailed_status_keep ..

-- Helper lemmas about whole poll cycles, used by the run-level theorems.

/-- For a non-`NS`/`NSI` entity, an `ERROR` operational state classifies as
finished (`ERROR` belongs to the finished set `{ENABLED, ERROR}`). -/
theorem error_state_classifies (entity : String)
    (hent : ¬(entity = "NS" ∨ entity = "NSI")) (j : Json)
    (hs : get_operational_state j entity = some (.str "ERROR")) :
    op_has_finished j entity = 0 := by
  rw [op_finished_iff]
  refine ⟨"ERROR", hs, ?_⟩
  unfold get_finished_states
  rw [if_neg hent]
  simp

/-- An `ERROR` operational state triggers the delete-error condition as
long as the retry budget is nonzero. -/
theorem error_state_delete_error (entity : String) (j : Json)
    (hs : get_operational_state j entity = some (.str "ERROR"))
    (dal : Int) (hdal : dal ≠ 0) :
    has_delete_error j entity true dal = true := by
  simp only [has_delete_error]
  rw [if_pos ⟨by trivial, hdal⟩, hs]
  decide

/-- With an exhausted (zero) retry budget the delete-error condition is
falsy, whatever the payload. -/
theorem has_delete_error_zero (resp : Json) (entity : String) (df : Bool) :
    has_delete_error resp entity df 0 = false := by
  simp only [has_delete_error]
  rw [if_neg (by simp)]

/-- A delete-operation poll cycle that sees an accepted code and an `ERROR`
state while retry budget remains takes the retry branch: it decrements the
budget, sleeps, and continues (given time budget remains). -/
theorem error_cycle_step (entity : String)
    (hent : ¬(entity = "NS" ∨ entity = "NSI")) (timeout : Int)
    (fr : FetchResult) (st : LoopState) (j : Json)
    (hcode : fr.code = 200 ∨ fr.code = 201 ∨ fr.code = 202 ∨ fr.code = 204)
    (hbody : decodeBody fr.body = some j)
    (hstate : get_operational_state j entity = some (.str "ERROR"))
    (hdal : st.delete_attempts_left ≠ 0)
    (htime : ¬ st.time_left - POLLING_TIME_INTERVAL ≤ 0) :
    ∃ ds em, cycle entity true timeout fr st =
      (.next { time_left := st.time_left - POLLING_TIME_INTERVAL,
               detailed_status := ds,
               detailed_status_deleted := st.detailed_status_deleted,
               delete_attempts_left := st.delete_attempts_left - 1 },
       ⟨em, 1, true⟩) := by
  have hc404 : ¬(fr.code = 404) := by
    rcases hcode with h | h | h | h <;> rw [h] <;> omega
  have hfin := error_state_classifies entity hent j hstate
  have hde := error_state_delete_error entity j hstate st.delete_attempts_left hdal
  have hcycle : cycle entity true timeout fr st =
      cycleTail entity timeout j false st.detailed_status_deleted st true
        (st.delete_attempts_left - 1) := by
    unfold cycle
    simp only [hbody]
    rw [if_neg (by simp [hc404]), if_neg (not_not_intro hcode), hfin]
    norm_num [hde]
  obtain ⟨ds, em, hct⟩ := cycleTail_next entity timeout j st.detailed_status_deleted st
    true (st.delete_attempts_left - 1) htime
  exact ⟨ds, em, by rw [hcycle, hct]⟩

/-- A delete-operation poll cycle that sees an accepted code and an `ERROR`
state with the retry budget exhausted (zero) takes the finished branch and,
the budget being below its initial value, returns at once without
sleeping. -/
theorem finish_cycle_step (entity : String)
    (hent : ¬(entity = "NS" ∨ entity = "NSI")) (timeout : Int)
    (fr : FetchResult) (st : LoopState) (j : Json)
    (hcode : fr.code = 200 ∨ fr.code = 201 ∨ fr.code = 202 ∨ fr.code = 204)
    (hbody : decodeBody fr.body = some j)
    (hstate : get_operational_state j entity = some (.str "ERROR"))
    (hdal : st.delete_attempts_left = 0) :
    ∃ st1 em, cycle entity true timeout fr st = (.ret st1, ⟨em, 0, false⟩) := by
  have hc404 : ¬(fr.code = 404) := by
    rcases hcode with h | h | h | h <;> rw [h] <;> omega
  have hfin := error_state_classifies entity hent j hstate
  have hde : has_delete_error j entity true st.delete_attempts_left = false := by
    rw [hdal]
    exact has_delete_error_zero j entity true
  have httr : decide (st.delete_attempts_left < MAX_DELETE_ATTEMPTS) = true := by
    rw [hdal]
    decide
  have hcycle : cycle entity true timeout fr st =
      cycleTail entity timeout j true st.detailed_status_deleted st false
        (st.delete_attempts_left - 1) := by
    unfold cycle
    simp only [hbody]
    rw [if_neg (by simp [hc404]), if_neg (not_not_intro hcode), hfin]
    norm_num [hde, httr]
  obtain ⟨em, hct⟩ := cycleTail_ret entity timeout j st.detailed_status_deleted st false
    (st.delete_attempts_left - 1)
  exact ⟨_, em, by rw [hcycle, hct]⟩

/-- A poll cycle that sees an accepted code and a pending payload sleeps
and continues unchanged apart from the time budget (given time remains). -/
theorem pending_cycle_next (entity : String) (deleteFlag : Bool) (timeout : Int)
    (fr : FetchResult) (st : LoopState) (j : Json)
    (hcode : fr.code = 200 ∨ fr.code = 201 ∨ fr.code = 202 ∨ fr.code = 204)
    (hbody : decodeBody fr.body = some j)
    (hpend : op_has_finished j entity = 1)
    (htime : ¬ st.time_left - POLLING_TIME_INTERVAL ≤ 0) :
    ∃ ds em, cycle entity deleteFlag timeout fr st =
      (.next { time_left := st.time_left - POLLING_TIME_INTERVAL,
               detailed_status := ds,
               detailed_status_deleted := st.detailed_status_deleted,
               delete_attempts_left := st.delete_attempts_left },
       ⟨em, 1, false⟩) := by
  have hc404 : ¬(deleteFlag = true ∧ fr.code = 404) := by
    rintro ⟨-, h4⟩
    rcases hcode with h | h | h | h <;> rw [h4] at h <;> omega
  have hcycle : cycle entity deleteFlag timeout fr st =
      cycleTail entity timeout j false st.detailed_status_deleted st false
        st.delete_attempts_left := by
    unfold cycle
    simp only [hbody]
    rw [if_neg hc404, if_neg (not_not_intro hcode), hpend]
    norm_num
  obtain ⟨ds, em, hct⟩ := cycleTail_next entity timeout j st.detailed_status_deleted st
    false st.delete_attempts_left htime
  exact ⟨ds, em, by rw [hcycle, hct]⟩

/-- A poll cycle that sees an accepted code and a pending payload when the
time budget is about to expire sleeps and then raises the timeout error,
whose message carries the originally requested timeout. -/
theorem pending_cycle_timeout (entity : String) (deleteFlag : Bool) (timeout : Int)
    (fr : FetchResult) (st : LoopState) (j : Json)
    (hcode : fr.code = 200 ∨ fr.code = 201 ∨ fr.code = 202 ∨ fr.code = 204)
    (hbody : decodeBody fr.body = some j)
    (hpend : op_has_finished j entity = 1)
    (htime : st.time_left - POLLING_TIME_INTERVAL ≤ 0) :
    ∃ st2 em, cycle entity deleteFlag timeout fr st =
      (.raise (.client ("operation timeout, waited for " ++ toString timeout ++ " seconds"))
         st2,
       ⟨em, 1, false⟩) := by
  have hc404 : ¬(deleteFlag = true ∧ fr.code = 404) := by
    rintro ⟨-, h4⟩
    rcases hcode with h | h | h | h <;> rw [h4] at h <;> omega
  have hcycle : cycle entity deleteFlag timeout fr st =
      cycleTail entity timeout j false st.detailed_status_deleted st false
        st.delete_attempts_left := by
    unfold cycle
    simp only [hbody]
    rw [if_neg hc404, if_neg (not_not_intro hcode), hpend]
    norm_num
  obtain ⟨st2, em, hct⟩ := cycleTail_timeout entity timeout j st.detailed_status_deleted
    st false st.delete_attempts_left htime
  exact ⟨st2, em, by rw [hcycle, hct]⟩

/-- C4.  On a non-delete wait, a first-cycle fetch whose HTTP status is
outside `{200, 201, 202, 204}` — e.g. a 500 with body `"internal error"` —
makes the session raise immediately: one cycle, zero sleeps, no progress
line, and the raised error is the wrapped protocol error carrying the
(decoded) response body, so for body `"internal error"` the message
contains `internal error`. -/
theorem protocol_error_immediate (entity entity_id api : String) (timeout : Int)
    (http_cmd : String → Nat → FetchResult) (fuel : Nat) (hfuel : 1 ≤ fuel)
    (j : Json)
    (hbody : decodeBody (http_cmd (api ++ "/" ++ entity_id) 0).body = some j)
    (hcode : ¬((http_cmd (api ++ "/" ++ entity_id) 0).code = 200
      ∨ (http_cmd (api ++ "/" ++ entity_id) 0).code = 201
      ∨ (http_cmd (api ++ "/" ++ entity_id) 0).code = 202
      ∨ (http_cmd (api ++ "/" ++ entity_id) 0).code = 204)) :
    wait_for_status entity entity_id timeout api http_cmd false fuel =
      (.raised (.client ("Operation failed for " ++ entity ++ ":\nerror:\n" ++ pyStr j)),
       ⟨[], 0, 0, 1⟩) := by
  obtain ⟨f, rfl⟩ : ∃ f, fuel = f + 1 := ⟨fuel - 1, by omega⟩
  have hcycle : cycle entity false timeout (http_cmd (api ++ "/" ++ entity_id) 0)
      (initState timeout) =
      (.raise (.client (pyStr j)) (initState timeout), ⟨[], 0, false⟩) := by
    unfold cycle
    simp only [hbody]
    rw [if_neg (by simp), if_pos hcode]
  unfold wait_for_status wrapError
  simp only [loopAux, hcycle, Trace.add]
  norm_num

/-- C6.  On a delete wait whose first fetch returns HTTP 404 (with any
decodable body), the session returns success immediately: the final state
and the single emitted progress line both carry detailed-status exactly
`"Deleted"`, there is exactly one poll cycle (no second fetch), no sleep,
and the classification phase is never reached (the retry budget is still
at its initial value). -/
theorem delete_404_first_cycle (entity entity_id api : String) (timeout : Int)
    (http_cmd : String → Nat → FetchResult) (fuel : Nat) (hfuel : 1 ≤ fuel)
    (j : Json)
    (hbody : decodeBody (http_cmd (api ++ "/" ++ entity_id) 0).body = some j)
    (hcode : (http_cmd (api ++ "/" ++ entity_id) 0).code = 404) :
    wait_for_status entity entity_id timeout api http_cmd true fuel =
      (.finished { time_left := timeout,
                   detailed_status := some (.str "Deleted"),
                   detailed_status_deleted := some (.str "Deleted"),
                   delete_attempts_left := MAX_DELETE_ATTEMPTS },
       ⟨[.str "Deleted"], 0, 0, 1⟩) := by
  obtain ⟨f, rfl⟩ : ∃ f, fuel = f + 1 := ⟨fuel - 1, by omega⟩
  have hdel : get_detailed_status j entity (some (.str "Deleted"))
      = some (.str "Deleted") := by
    unfold get_detailed_status
    rw [if_pos (by decide)]
  have hnds : newDetailedStatus j entity (some (.str "Deleted"))
      = some (.str "Deleted") := by
    unfold newDetailedStatus
    rw [hdel, if_pos (by decide)]
  have hshow : show_detailed_status (initState timeout).detailed_status
      (newDetailedStatus j entity (some (.str "Deleted")))
      = (true, some (.str "Deleted")) := by
    rw [hnds]
    show show_detailed_status none (some (.str "Deleted")) = _
    unfold show_detailed_status
    rw [if_pos ⟨by simp, by simp⟩]
  have hcycle : cycle entity true timeout (http_cmd (api ++ "/" ++ entity_id) 0)
      (initState timeout) =
      (.ret { time_left := timeout,
              detailed_status := some (.str "Deleted"),
              detailed_status_deleted := some (.str "Deleted"),
              delete_attempts_left := MAX_DELETE_ATTEMPTS },
       ⟨[.str "Deleted"], 0, false⟩) := by
    unfold cycle
    simp only [hbody]
    rw [if_pos ⟨by trivial, hcode⟩]
    unfold cycleTail
    simp only [hshow]
    simp [initState, Option.toList, hnds]
  unfold wait_for_status wrapError
  simp only [loopAux, hcycle, Trace.add]
  norm_num

/-- C5.  With a time budget of 2 units (poll interval 1) and every fetch
returning an accepted HTTP status with a payload that classifies as
pending, the session raises the wrapped timeout error after exactly 2 poll
cycles and 2 sleeps — not 3 — and the message carries the originally
requested timeout value 2. -/
theorem timeout_after_two_cycles (entity entity_id api : String)
    (http_cmd : String → Nat → FetchResult) (deleteFlag : Bool)
    (fuel : Nat) (hfuel : 2 ≤ fuel)
    (hf : ∀ i : Nat,
      ((http_cmd (api ++ "/" ++ entity_id) i).code = 200
        ∨ (http_cmd (api ++ "/" ++ entity_id) i).code = 201
        ∨ (http_cmd (api ++ "/" ++ entity_id) i).code = 202
        ∨ (http_cmd (api ++ "/" ++ entity_id) i).code = 204)
      ∧ ∃ j, decodeBody (http_cmd (api ++ "/" ++ entity_id) i).body = some j
          ∧ op_has_finished j entity = 1) :
    (wait_for_status entity entity_id 2 api http_cmd deleteFlag fuel).1
      = .raised (.client ("Operation failed for " ++ entity
          ++ ":\nerror:\noperation timeout, waited for 2 seconds"))
    ∧ (wait_for_status entity entity_id 2 api http_cmd deleteFlag fuel).2.cycles = 2
    ∧ (wait_for_status entity entity_id 2 api http_cmd deleteFlag fuel).2.sleeps = 2 := by
  obtain ⟨f, rfl⟩ : ∃ f, fuel = f + 2 := ⟨fuel - 2, by omega⟩
  obtain ⟨hcode0, j0, hbody0, hpend0⟩ := hf 0
  obtain ⟨hcode1, j1, hbody1, hpend1⟩ := hf 1
  obtain ⟨ds1, em1, hc0⟩ := pending_cycle_next entity deleteFlag 2
    (http_cmd (api ++ "/" ++ entity_id) 0) (initState 2) j0 hcode0 hbody0 hpend0
    (by simp [initState, POLLING_TIME_INTERVAL])
  obtain ⟨st2, em2, hc1⟩ := pending_cycle_timeout entity deleteFlag 2
    (http_cmd (api ++ "/" ++ entity_id) 1)
    { time_left := (initState 2).time_left - POLLING_TIME_INTERVAL,
      detailed_status := ds1,
      detailed_status_deleted := (initState 2).detailed_status_deleted,
      delete_attempts_left := (initState 2).delete_attempts_left }
    j1 hcode1 hbody1 hpend1 (by simp [initState, POLLING_TIME_INTERVAL])
  unfold wait_for_status wrapError
  simp only [loopAux, hc0, hc1, Trace.add]
  norm_num
  rw [String.append_assoc]
  congr 1

/-- C1.  A delete wait (`isDeleteOperation = true`) against a non-`NS`/
`NSI` entity whose every fetch returns an accepted HTTP status with an
`ERROR` operational state terminates normally rather than looping forever,
provided the time budget is large enough (at least 4) not to expire first:
it returns after exactly 4 poll cycles and 3 sleeps, having consumed
exactly 3 retry decrements of the delete-retry budget in the delete-error
branch. -/
theorem delete_retry_exhaustion (entity entity_id api : String)
    (hent : ¬(entity = "NS" ∨ entity = "NSI"))
    (timeout : Int) (ht : 4 ≤ timeout)
    (http_cmd : String → Nat → FetchResult) (fuel : Nat) (hfuel : 4 ≤ fuel)
    (hf : ∀ i : Nat,
      ((http_cmd (api ++ "/" ++ entity_id) i).code = 200
        ∨ (http_cmd (api ++ "/" ++ entity_id) i).code = 201
        ∨ (http_cmd (api ++ "/" ++ entity_id) i).code = 202
        ∨ (http_cmd (api ++ "/" ++ entity_id) i).code = 204)
      ∧ ∃ j, decodeBody (http_cmd (api ++ "/" ++ entity_id) i).body = some j
          ∧ get_operational_state j entity = some (.str "ERROR")) :
    (wait_for_status entity entity_id timeout api http_cmd true fuel).1.isFinished = true
    ∧ (wait_for_status entity entity_id timeout api http_cmd true fuel).2.errorRetries = 3
    ∧ (wait_for_status entity entity_id timeout api http_cmd true fuel).2.cycles = 4
    ∧ (wait_for_status entity entity_id timeout api http_cmd true fuel).2.sleeps = 3 := by
  obtain ⟨f, rfl⟩ : ∃ f, fuel = f + 4 := ⟨fuel - 4, by omega⟩
  obtain ⟨hcode0, j0, hbody0, hstate0⟩ := hf 0
  obtain ⟨hcode1, j1, hbody1, hstate1⟩ := hf 1
  obtain ⟨hcode2, j2, hbody2, hstate2⟩ := hf 2
  obtain ⟨hcode3, j3, hbody3, hstate3⟩ := hf 3
  obtain ⟨ds1, em1, hc0⟩ := error_cycle_step entity hent timeout
    (http_cmd (api ++ "/" ++ entity_id) 0) (initState timeout) j0 hcode0 hbody0 hstate0
    (by simp [initState, MAX_DELETE_ATTEMPTS])
    (by simp only [initState, POLLING_TIME_INTERVAL]; omega)
  obtain ⟨ds2, em2, hc1⟩ := error_cycle_step entity hent timeout
    (http_cmd (api ++ "/" ++ entity_id) 1)
    { time_left := (initState timeout).time_left - POLLING_TIME_INTERVAL,
      detailed_status := ds1,
      detailed_status_deleted := (initState timeout).detailed_status_deleted,
      delete_attempts_left := (initState timeout).delete_attempts_left - 1 }
    j1 hcode1 hbody1 hstate1
    (by simp [initState, MAX_DELETE_ATTEMPTS])
    (by simp only [initState, POLLING_TIME_INTERVAL]; omega)
  obtain ⟨ds3, em3, hc2⟩ := error_cycle_step entity hent timeout
    (http_cmd (api ++ "/" ++ entity_id) 2)
    { time_left := (initState timeout).time_left - POLLING_TIME_INTERVAL
        - POLLING_TIME_INTERVAL,
      detailed_status := ds2,
      detailed_status_deleted := (initState timeout).detailed_status_deleted,
      delete_attempts_left := (initState timeout).delete_attempts_left - 1 - 1 }
    j2 hcode2 hbody2 hstate2
    (by simp [initState, MAX_DELETE_ATTEMPTS])
    (by simp only [initState, POLLING_TIME_INTERVAL]; omega)
  obtain ⟨st4, em4, hc3⟩ := finish_cycle_step entity hent timeout
    (http_cmd (api ++ "/" ++ entity_id) 3)
    { time_left := (initState timeout).time_left - POLLING_TIME_INTERVAL
        - POLLING_TIME_INTERVAL - POLLING_TIME_INTERVAL,
      detailed_status := ds3,
      detailed_status_deleted := (initState timeout).detailed_status_deleted,
      delete_attempts_left := (initState timeout).delete_attempts_left - 1 - 1 - 1 }
    j3 hcode3 hbody3 hstate3
    (by simp [initState, MAX_DELETE_ATTEMPTS])
  unfold wait_for_status wrapError
  simp only [loopAux, hc0, hc1, hc2, hc3, Trace.add]
  norm_num [Outcome.isFinished]

/-- C3 (counterexample).  Not every error that `wait_for_status` raises is
re-wrapped into the uniform `"Operation failed for <entityKind>..."` form.
Two escapes, in the exact error-path model: a fetch result with HTTP 200
and a non-empty body that is not valid JSON makes `json.loads` raise a
decode error; and an accepted response whose body decodes to a truthy
non-dict (here the number `5`) makes `resp.get` inside the state
extraction raise an `AttributeError`.  Neither is a `ClientException`, so
both escape the `except ClientException` boundary unwrapped and match no
client-exception message at all. -/
theorem error_wrapping_counterexample :
    ((wait_for_statusE "NS" "id-123" 10 "/api/path" (fun _ _ => ⟨200, .invalid⟩)
        false 5).1 = .raised .jsonDecode
      ∧ ∀ m : String,
        (wait_for_statusE "NS" "id-123" 10 "/api/path" (fun _ _ => ⟨200, .invalid⟩)
          false 5).1 ≠ .raised (.client m))
    ∧ ((wait_for_statusE "NS" "id-456" 10 "/api/path"
          (fun _ _ => ⟨200, .valid (.num 5)⟩) false 5).1 = .raised .attributeError
      ∧ ∀ m : String,
        (wait_for_statusE "NS" "id-456" 10 "/api/path"
          (fun _ _ => ⟨200, .valid (.num 5)⟩) false 5).1 ≠ .raised (.client m)) := by
  refine ⟨⟨rfl, fun m h => ?_⟩, rfl, fun m h => ?_⟩
  · rw [show (wait_for_statusE "NS" "id-123" 10 "/api/path" (fun _ _ => ⟨200, .invalid⟩)
        false 5).1 = OutcomeE.raised .jsonDecode from rfl] at h
    exact ErrE.noConfusion (OutcomeE.raised.inj h)
  · rw [show (wait_for_statusE "NS" "id-456" 10 "/api/path"
        (fun _ _ => ⟨200, .valid (.num 5)⟩) false 5).1
        = OutcomeE.raised .attributeError from rfl] at h
    exact ErrE.noConfusion (OutcomeE.raised.inj h)

/-- C3 (amended).  Every `ClientException` arising inside the loop
(protocol error, malformed-response error, timeout) is caught once at the
outer boundary and re-raised with the uniform message
`"Operation failed for <entityKind>:\nerror:\n<original message>"`; an
error that is not a `ClientException` — the JSON decode error of a
non-empty non-JSON body, or the `AttributeError` raised when state
extraction calls `.get` on a truthy non-dict payload or a non-dict
`_admin` member — propagates unwrapped.  So, in the exact error-path
model, every raised error is the decode error, the attribute error, or a
client error in the uniform form. -/
theorem error_wrapping_trichotomy (entity_label entity_id : String) (timeout : Int)
    (apiUrlStatus : String) (http_cmd : String → Nat → FetchResult)
    (deleteFlag : Bool) (fuel : Nat) (e : ErrE)
    (h : (wait_for_statusE entity_label entity_id timeout apiUrlStatus http_cmd
      deleteFlag fuel).1 = .raised e) :
    e = .jsonDecode ∨ e = .attributeError
    ∨ ∃ m, e = .client ("Operation failed for " ++ entity_label
        ++ ":\nerror:\n" ++ m) := by
  have hr : ∀ (r : OutcomeE × Trace), (wrapErrorE entity_label r).1 = .raised e →
      e = .jsonDecode ∨ e = .attributeError
      ∨ ∃ m, e = .client ("Operation failed for " ++ entity_label
          ++ ":\nerror:\n" ++ m) := by
    intro r hw
    unfold wrapErrorE at hw
    rcases hout : r.1 with st | e2 | _
    · rw [hout] at hw
      simp at hw
      rw [hout] at hw
      simp at hw
    · rcases e2 with m | _ | _
      · rw [hout] at hw
        simp at hw
        exact Or.inr (Or.inr ⟨m, hw.symm⟩)
      · rw [hout] at hw
        simp at hw
        rw [hout] at hw
        simp at hw
        exact Or.inl hw.symm
      · rw [hout] at hw
        simp at hw
        rw [hout] at hw
        simp at hw
        exact Or.inr (Or.inl hw.symm)
    · rw [hout] at hw
      simp at hw
      rw [hout] at hw
      simp at hw
  exact hr _ h

-- Witnesses: each applies its theorem at a concrete input, discharging the
-- hypotheses by evaluation.

/-- Witness for `classify_characterization`: a `VIM` payload whose
`_admin.operationalState` is `ENABLED` classifies as finished. -/
theorem classify_characterization_witness :
    op_has_finished (.obj [("_admin", .obj [("operationalState", .str "ENABLED")])])
      "VIM" = 0 :=
  (((classify_characterization "VIM"
      [("_admin", .obj [("operationalState", .str "ENABLED")])]).1 (by decide)).1).mpr
    ⟨"ENABLED", by decide, Or.inl rfl⟩

/-- Witness for `missing_admin_malformed` at a concrete payload without
`_admin`. -/
theorem missing_admin_malformed_witness :
    get_operational_state (.obj [("name", .str "myvim")]) "VIM" = none
    ∧ op_has_finished (.obj [("name", .str "myvim")]) "VIM" = -1 :=
  missing_admin_malformed "VIM" (by decide) [("name", .str "myvim")] (by decide)

/-- Witness for `change_triggered_reporting`: starting from no reported
value, two consecutive `building` cycles emit exactly once. -/
theorem change_triggered_reporting_witness :
    show_detailed_status none (some (.str "building")) = (true, some (.str "building"))
    ∧ show_detailed_status (some (.str "building")) (some (.str "building"))
        = (false, some (.str "building")) :=
  ⟨(change_triggered_reporting none (.str "building") (by decide)).1,
   (change_triggered_reporting none (.str "building") (by decide)).2.1⟩

/-- Witness for `finished_cycle_marking`: a delete cycle with budget
already at 2 of 3 returns and stores budget 1. -/
theorem finished_cycle_marking_witness :
    (cycle "VIM" true 100
        ⟨200, .valid (.obj [("_admin", .obj [("operationalState", .str "ENABLED")])])⟩
        ⟨50, none, none, 2⟩).1.isRet = decide ((2 : Int) < MAX_DELETE_ATTEMPTS)
    ∧ (cycle "VIM" true 100
        ⟨200, .valid (.obj [("_admin", .obj [("operationalState", .str "ENABLED")])])⟩
        ⟨50, none, none, 2⟩).1.state.delete_attempts_left = 2 - 1 :=
  (finished_cycle_marking "VIM" true 100
      ⟨200, .valid (.obj [("_admin", .obj [("operationalState", .str "ENABLED")])])⟩
      ⟨50, none, none, 2⟩
      (.obj [("_admin", .obj [("operationalState", .str "ENABLED")])])
      rfl (Or.inl rfl) (by decide) (by decide)).1 rfl

/-- Witness for `delete_404_bypass`: a 404 mid-session with an empty-object
payload (which would classify as malformed) still returns `"Deleted"`. -/
theorem delete_404_bypass_witness :
    (cycle "NS" true 600 ⟨404, .valid (.obj [])⟩ ⟨60, none, none, 3⟩).1.isRet = true
    ∧ (cycle "NS" true 600 ⟨404, .valid (.obj [])⟩
        ⟨60, none, none, 3⟩).1.state.detailed_status = some (.str "Deleted")
    ∧ (cycle "NS" true 600 ⟨404, .valid (.obj [])⟩
        ⟨60, none, none, 3⟩).1.state.detailed_status_deleted = some (.str "Deleted")
    ∧ (cycle "NS" true 600 ⟨404, .valid (.obj [])⟩ ⟨60, none, none, 3⟩).2.slept = 0 :=
  delete_404_bypass "NS" 600 ⟨404, .valid (.obj [])⟩ ⟨60, none, none, 3⟩ (.obj []) rfl rfl

/-- Witness for `protocol_error_immediate`: HTTP 500 with body
`"internal error"` on the first cycle. -/
theorem protocol_error_immediate_witness :
    wait_for_status "NS" "op-1" 600 "/nslcm/v1/ns_lcm_op_occs"
        (fun _ _ => ⟨500, .valid (.str "internal error")⟩) false 5 =
      (.raised (.client "Operation failed for NS:\nerror:\ninternal error"),
       ⟨[], 0, 0, 1⟩) :=
  protocol_error_immediate "NS" "op-1" "/nslcm/v1/ns_lcm_op_occs" 600
    (fun _ _ => ⟨500, .valid (.str "internal error")⟩) 5 (by decide)
    (.str "internal error") rfl (by decide)

/-- Witness for `delete_404_first_cycle`: a delete wait answered 404 with
an empty body on the first poll. -/
theorem delete_404_first_cycle_witness :
    wait_for_status "NS" "ns-1" 3600 "/nslcm/v1/ns_instances"
        (fun _ _ => ⟨404, .empty⟩) true 5 =
      (.finished { time_left := 3600, detailed_status := some (.str "Deleted"),
                   detailed_status_deleted := some (.str "Deleted"),
                   delete_attempts_left := MAX_DELETE_ATTEMPTS },
       ⟨[.str "Deleted"], 0, 0, 1⟩) :=
  delete_404_first_cycle "NS" "ns-1" "/nslcm/v1/ns_instances" 3600
    (fun _ _ => ⟨404, .empty⟩) 5 (by decide) (.str "") rfl rfl

/-- Witness for `timeout_after_two_cycles`: a `VIM` wait with budget 2 and
a perpetually `PROCESSING` payload. -/
theorem timeout_after_two_cycles_witness :
    (wait_for_status "VIM" "vim-1" 2 "/admin/v1/vim_accounts"
        (fun _ _ => ⟨200,
          .valid (.obj [("_admin", .obj [("operationalState", .str "PROCESSING")])])⟩)
        false 5).1
      = .raised (.client
          "Operation failed for VIM:\nerror:\noperation timeout, waited for 2 seconds")
    ∧ (wait_for_status "VIM" "vim-1" 2 "/admin/v1/vim_accounts"
        (fun _ _ => ⟨200,
          .valid (.obj [("_admin", .obj [("operationalState", .str "PROCESSING")])])⟩)
        false 5).2.cycles = 2
    ∧ (wait_for_status "VIM" "vim-1" 2 "/admin/v1/vim_accounts"
        (fun _ _ => ⟨200,
          .valid (.obj [("_admin", .obj [("operationalState", .str "PROCESSING")])])⟩)
        false 5).2.sleeps = 2 :=
  timeout_after_two_cycles "VIM" "vim-1" "/admin/v1/vim_accounts"
    (fun _ _ => ⟨200,
      .valid (.obj [("_admin", .obj [("operationalState", .str "PROCESSING")])])⟩)
    false 5 (by decide)
    (fun _ => ⟨Or.inl rfl,
      ⟨.obj [("_admin", .obj [("operationalState", .str "PROCESSING")])], rfl, by decide⟩⟩)

/-- Witness for `delete_retry_exhaustion`: a `VIM` delete wait answered
with an `ERROR` state on every cycle, budget 10. -/
theorem delete_retry_exhaustion_witness :
    (wait_for_status "VIM" "vim-1" 10 "/admin/v1/vim_accounts"
        (fun _ _ => ⟨200,
          .valid (.obj [("_admin", .obj [("operationalState", .str "ERROR")])])⟩)
        true 10).1.isFinished = true
    ∧ (wait_for_status "VIM" "vim-1" 10 "/admin/v1/vim_accounts"
        (fun _ _ => ⟨200,
          .valid (.obj [("_admin", .obj [("operationalState", .str "ERROR")])])⟩)
        true 10).2.errorRetries = 3
    ∧ (wait_for_status "VIM" "vim-1" 10 "/admin/v1/vim_accounts"
        (fun _ _ => ⟨200,
          .valid (.obj [("_admin", .obj [("operationalState", .str "ERROR")])])⟩)
        true 10).2.cycles = 4
    ∧ (wait_for_status "VIM" "vim-1" 10 "/admin/v1/vim_accounts"
        (fun _ _ => ⟨200,
          .valid (.obj [("_admin", .obj [("operationalState", .str "ERROR")])])⟩)
        true 10).2.sleeps = 3 :=
  delete_retry_exhaustion "VIM" "vim-1" "/admin/v1/vim_accounts" (by decide) 10
    (by decide)
    (fun _ _ => ⟨200,
      .valid (.obj [("_admin", .obj [("operationalState", .str "ERROR")])])⟩)
    10 (by decide)
    (fun _ => ⟨Or.inl rfl,
      ⟨.obj [("_admin", .obj [("operationalState", .str "ERROR")])], rfl, by decide⟩⟩)

/-- Witness for `error_wrapping_trichotomy`: the malformed-response run
for `NS` raises an error in the uniform wrapped form. -/
theorem error_wrapping_trichotomy_witness :
    (ErrE.client
        "Operation failed for NS:\nerror:\nunexpected response from server - \x7b\x7d ")
      = .jsonDecode
    ∨ (ErrE.client
        "Operation failed for NS:\nerror:\nunexpected response from server - \x7b\x7d ")
      = .attributeError
    ∨ ∃ m, (ErrE.client
        "Operation failed for NS:\nerror:\nunexpected response from server - \x7b\x7d ")
      = .client ("Operation failed for " ++ "NS" ++ ":\nerror:\n" ++ m) :=
  error_wrapping_trichotomy "NS" "id-1" 600 "/api" (fun _ _ => ⟨200, .valid (.obj [])⟩)
    false 5
    (.client
      "Operation failed for NS:\nerror:\nunexpected response from server - \x7b\x7d ")
    rfl

end OsmWait
